import Mathlib

/-!
Verification model of the spine-viewer application (`src/src/App.tsx`).

The TypeScript source is shallowly embedded: pure helpers become Lean
functions, the asynchronous slot lifecycle becomes a small-step transition
relation whose atomic steps are exactly the synchronous blocks between
`await` suspension points, and external effects (the pixi asset manager,
object-URL allocation, image decoding, the spine runtime) are supplied by
explicit environment records.  Numeric values that are IEEE doubles in the
source (scales, pointer coordinates, grid metrics) are modelled as rationals;
none of the verified claims depends on rounding behaviour, only on ordering,
comparison and exact arithmetic on values the code copies around.
-/

namespace SpineViewer

/-! ### Atlas descriptor parser (App.tsx lines 34-60) -/

/-- Grid row count (`gridRows`, App.tsx line 34). -/
def gridRows : Nat := 5

/-- Grid column count (`gridCols`, App.tsx line 35). -/
def gridCols : Nat := 5

/-- Splitting a character list at every newline, the char-level content of
`atlasText.split(...)` (App.tsx line 40).  Lines are kept as character
lists because Lean's built-in `String` functions are defined by
well-founded recursion over byte positions, which the kernel cannot
evaluate; on `String.data` every operation here is structurally recursive
and fully computable. -/
def splitLinesChar : List Char → List (List Char)
  | [] => [[]]
  | c :: rest =>
    if c = '\n' then [] :: splitLinesChar rest
    else
      match splitLinesChar rest with
      | [] => [[c]]
      | line :: more => (c :: line) :: more

/-- Dropping the single carriage return a `\r\n` separator leaves at the
end of a piece, completing the `split(/\r?\n/)` semantics. -/
def stripTrailingCR (line : List Char) : List Char :=
  match line.reverse with
  | c :: rest => if c = '\r' then rest.reverse else line
  | [] => line

/-- `String.prototype.trim` on a line: drop leading and trailing
whitespace.  `Char.isWhitespace` covers the space, tab, newline and
carriage-return characters, the whitespace that can actually occur in a
line-split atlas text. -/
def trimChar (line : List Char) : List Char :=
  ((line.dropWhile Char.isWhitespace).reverse.dropWhile Char.isWhitespace).reverse

/-- Boolean prefix test on character lists (`String.prototype.startsWith`). -/
def charPrefixOf : List Char → List Char → Bool
  | [], _ => true
  | _ :: _, [] => false
  | a :: as, b :: bs => a == b && charPrefixOf as bs

/-- Model of `atlasText.split(/\r?\n/)` (App.tsx line 40). -/
def splitLinesRN (text : String) : List (List Char) :=
  (splitLinesChar text.data).map stripTrailingCR

/-- Model of the scan for the next non-empty (after trimming) line
(App.tsx lines 47-54): the first line in `rest` whose trimmed form is
non-empty, or the empty line when there is none. -/
def nextNonemptyLine (rest : List (List Char)) : List Char :=
  ((rest.map trimChar).find? (fun c => !c.isEmpty)).getD []

/-- The line-scanning loop of `extractAtlasPageNames` (App.tsx lines 42-58),
recursing over the list of raw lines.  A trimmed line that is non-empty and
contains no colon is pushed when the next non-empty line (trimmed) starts
with `size:`. -/
def extractLoop : List (List Char) → List String
  | [] => []
  | l :: rest =>
    let line := trimChar l
    if line.isEmpty || line.contains ':' then extractLoop rest
    else if charPrefixOf "size:".data (nextNonemptyLine rest) then
      String.mk line :: extractLoop rest
    else extractLoop rest

/-- Model of `extractAtlasPageNames` (App.tsx lines 39-60). -/
def extractAtlasPageNames (atlasText : String) : List String :=
  extractLoop (splitLinesRN atlasText)

/-- Spec-side characterisation of a page-name candidate, following the
words of spec section 4.1: the line at index `i` (trimmed) is non-empty and
contains no colon, and the next non-empty line after it begins with
`size:`. -/
def specCandidateAt (lines : List (List Char)) (i : Nat) : Bool :=
  let line := trimChar (lines.getD i [])
  !line.isEmpty && !line.contains ':' &&
    (match ((lines.drop (i + 1)).map trimChar).find? (fun c => !c.isEmpty) with
     | some nxt => charPrefixOf "size:".data nxt
     | none => false)

/-- Spec-side page-name list over a fixed line list, following the words of
spec section 4.1: exactly the candidate lines, in declaration order,
duplicates preserved. -/
def specOver (lines : List (List Char)) : List String :=
  (List.range lines.length).filterMap (fun i =>
    if specCandidateAt lines i then some (String.mk (trimChar (lines.getD i [])))
    else none)

/-- Spec-side parser: candidate page names of the atlas text, in order. -/
def specPageNames (text : String) : List String :=
  specOver (splitLinesRN text)

/-! ### Asset binder: `createSpineFromFiles` (App.tsx lines 593-670)

External effects are supplied through a `BindEnv` record: the unique id
suffix produced by `Date.now()` and `Math.random()`, the two object URLs
`URL.createObjectURL` returns, and the outcomes of `createImageBitmap` and
of `Assets.load` plus `Spine.from`.  A `BindOutcome` records, next to the
result, which asset-manager aliases are still registered when the call
returns (the code has no `Assets` removal on its failure path), which object
URLs were created, and which were revoked. -/

/-- The `LoadedAssets` record (App.tsx lines 12-15). -/
structure LoadedAssets where
  keys : List String
  urls : List String
deriving DecidableEq, Repr

/-- One user-supplied image page, identified by its file name. -/
structure ImageFile where
  name : String
deriving DecidableEq, Repr

/-- The `{ json, atlas, images }` argument of `createSpineFromFiles`; the
skeleton blob is opaque to the binder, the atlas blob contributes its text. -/
structure BindFiles where
  jsonName : String
  atlasText : String
  images : List ImageFile
deriving DecidableEq, Repr

/-- External-world outcomes consumed by one `createSpineFromFiles` call. -/
structure BindEnv where
  assetSuffix : String
  jsonUrl : String
  atlasUrl : String
  decodeOk : Bool
  loadOk : Bool
  animationNames : List String
  skinNames : List String
deriving DecidableEq, Repr

/-- Error taxonomy of the binder (spec section 7); the source throws
`Error` objects with the corresponding messages. -/
inductive BindError where
  | malformedAtlas
  | missingPages (names : List String)
  | decodeFailure
  | loadFailure
deriving DecidableEq, Repr

/-- Successful bind payload: the `{ keys, urls }` bundle plus the animation
and skin names read from the instantiated rig. -/
structure BindSuccess where
  assets : LoadedAssets
  animationNames : List String
  skinNames : List String
deriving DecidableEq, Repr

instance instDecEqExceptBind {ε α : Type} [DecidableEq ε] [DecidableEq α] :
    DecidableEq (Except ε α) := fun x y =>
  match x, y with
  | Except.ok a, Except.ok b =>
    if h : a = b then isTrue (by rw [h])
    else isFalse (by intro hc; cases hc; exact h rfl)
  | Except.error a, Except.error b =>
    if h : a = b then isTrue (by rw [h])
    else isFalse (by intro hc; cases hc; exact h rfl)
  | Except.ok _, Except.error _ => isFalse (by intro hc; cases hc)
  | Except.error _, Except.ok _ => isFalse (by intro hc; cases hc)

/-- Result and residual external effects of one `createSpineFromFiles` call. -/
structure BindOutcome where
  result : Except BindError BindSuccess
  registeredKeys : List String
  createdUrls : List String
  revokedUrls : List String
deriving DecidableEq, Repr

/-- The registration-and-load tail of `createSpineFromFiles`
(App.tsx lines 632-669): create the two object URLs, derive the two fresh
keys, `Assets.add` both, then await `Assets.load` and `Spine.from`.  The
`catch` block (lines 666-669) revokes the object URLs and rethrows; it does
not remove the two registered aliases. -/
def bindRegisterAndLoad (assetPrefix : String) (env : BindEnv) : BindOutcome :=
  let assetId := assetPrefix ++ "-" ++ env.assetSuffix
  let skeletonKey := "spine-skeleton-" ++ assetId
  let atlasKey := "spine-atlas-" ++ assetId
  let urlsToRevoke := [env.jsonUrl, env.atlasUrl]
  if env.loadOk then
    { result := Except.ok
        { assets := { keys := [skeletonKey, atlasKey], urls := urlsToRevoke },
          animationNames := env.animationNames,
          skinNames := env.skinNames },
      registeredKeys := [skeletonKey, atlasKey],
      createdUrls := urlsToRevoke,
      revokedUrls := [] }
  else
    { result := Except.error BindError.loadFailure,
      registeredKeys := [skeletonKey, atlasKey],
      createdUrls := urlsToRevoke,
      revokedUrls := urlsToRevoke }

/-- Model of `createSpineFromFiles` (App.tsx lines 593-670): extract the
page names, fail on an empty list; take the single-image shortcut when at
most one page is declared and exactly one image is supplied (lines 610-612,
no name matching); otherwise require an exactly-matching image for every
page name (lines 614-617); decode the bitmaps; then register and load.
The source binds `pageNames` and `missing` to local consts; they are
inlined here so the branch structure stays first-order. -/
def createSpineFromFiles (files : BindFiles) (assetPrefix : String)
    (env : BindEnv) : BindOutcome :=
  if (extractAtlasPageNames files.atlasText).length = 0 then
    { result := Except.error BindError.malformedAtlas,
      registeredKeys := [], createdUrls := [], revokedUrls := [] }
  else if (extractAtlasPageNames files.atlasText).length ≤ 1 ∧
      files.images.length = 1 then
    if env.decodeOk then bindRegisterAndLoad assetPrefix env
    else
      { result := Except.error BindError.decodeFailure,
        registeredKeys := [], createdUrls := [], revokedUrls := [] }
  else if ((extractAtlasPageNames files.atlasText).filter
      (fun n => !((files.images.map ImageFile.name).contains n))).isEmpty then
    if env.decodeOk then bindRegisterAndLoad assetPrefix env
    else
      { result := Except.error BindError.decodeFailure,
        registeredKeys := [], createdUrls := [], revokedUrls := [] }
  else
    { result := Except.error (BindError.missingPages
        ((extractAtlasPageNames files.atlasText).filter
          (fun n => !((files.images.map ImageFile.name).contains n)))),
      registeredKeys := [], createdUrls := [], revokedUrls := [] }

/-! ### Grid metrics and hit testing (App.tsx lines 78-88, 222-243, 399-427)

Viewport coordinates and cell sizes are IEEE doubles in the browser; they
are modelled as rationals.  The canvas `pointerdown` handler
(`handleCanvasPointer`, lines 399-427) and the grid-guide `pointerdown`
handler (lines 329-352) share the same bounds check and floor computation;
both are modelled by `hitTestGrid`. -/

/-- The derived metrics of `getGridMetrics` (App.tsx lines 78-88). -/
structure GridMetrics where
  cellSize : ℚ
  gridSize : ℚ
  gridLeft : ℚ
  gridTop : ℚ
deriving DecidableEq, Repr

/-- Model of `getGridMetrics` (App.tsx lines 78-88) given the renderer size
and the configured cell size. -/
def getGridMetrics (rendererWidth rendererHeight cellSize : ℚ) : GridMetrics :=
  let gridSize := cellSize * (gridCols : ℚ)
  { cellSize := cellSize
    gridSize := gridSize
    gridLeft := rendererWidth / 2 - gridSize / 2
    gridTop := rendererHeight / 2 - gridSize / 2 }

/-- The pointer-to-cell computation shared by `handleCanvasPointer`
(App.tsx lines 414-425) and the grid-guide handler (lines 338-350): reject
a point outside the drawn extent with strict inequalities, otherwise floor
into row and column indices.  The source performs no range clamp on the
resulting indices. -/
def hitTestGrid (m : GridMetrics) (x y : ℚ) : Option (Int × Int) :=
  if x < m.gridLeft ∨ y < m.gridTop ∨ x > m.gridLeft + m.gridSize ∨
      y > m.gridTop + m.gridSize then
    none
  else
    some (⌊(y - m.gridTop) / m.cellSize⌋, ⌊(x - m.gridLeft) / m.cellSize⌋)

/-- Left edge of the cell in column `col` (App.tsx lines 239, 261, 300). -/
def cellLeft (m : GridMetrics) (col : Nat) : ℚ :=
  m.gridLeft + (col : ℚ) * m.cellSize

/-- Top edge of the cell in row `row` (App.tsx lines 240, 262, 301). -/
def cellTop (m : GridMetrics) (row : Nat) : ℚ :=
  m.gridTop + (row : ℚ) * m.cellSize

/-- Membership of a point in the half-open logical rectangle of a cell,
the `[left, left+size)` interval of spec section 4.4. -/
def pointInCell (m : GridMetrics) (row col : Nat) (x y : ℚ) : Prop :=
  cellLeft m col ≤ x ∧ x < cellLeft m col + m.cellSize ∧
  cellTop m row ≤ y ∧ y < cellTop m row + m.cellSize

instance (m : GridMetrics) (row col : Nat) (x y : ℚ) :
    Decidable (pointInCell m row col x y) := by
  unfold pointInCell
  exact inferInstance

/-! ### Grid slot records (App.tsx lines 17-32, 108-129, 581-588)

The per-slot React record and the pure record transformations passed to
`updateGridSlot` by `loadGridSlot`, its catch branch, and `handleGridClear`. -/

/-- The `GridSlot` record type (App.tsx lines 17-32).  Note that it carries
no generation counter of any kind. -/
structure GridSlot where
  id : String
  label : String
  row : Nat
  col : Nat
  hasSpine : Bool
  animations : List String
  selectedAnimation : String
  skins : List String
  selectedSkin : String
  isLooping : Bool
  isPlaying : Bool
  scale : ℚ
  status : String
  error : Option String
deriving DecidableEq, Repr

/-- The initial slot record built for grid index `row * gridCols + col`
(App.tsx lines 108-129). -/
def initialSlot (row col : Nat) : GridSlot :=
  { id := "slot-" ++ toString row ++ "-" ++ toString col
    label := "R" ++ toString (row + 1) ++ "C" ++ toString (col + 1)
    row := row
    col := col
    hasSpine := false
    animations := []
    selectedAnimation := ""
    skins := []
    selectedSkin := ""
    isLooping := true
    isPlaying := true
    scale := 1
    status := "Empty slot."
    error := none }

/-- The initial 25-element slot array (App.tsx lines 108-129). -/
def initialGridSlots : List GridSlot :=
  (List.range (gridRows * gridCols)).map (fun index =>
    initialSlot (index / gridCols) (index % gridCols))

/-- Model of `updateGridSlot` (App.tsx lines 581-588): map a pure updater
over the record with the given id, leaving every other record unchanged. -/
def updateGridSlot (slots : List GridSlot) (slotId : String)
    (updater : GridSlot → GridSlot) : List GridSlot :=
  slots.map (fun slot => if slot.id = slotId then updater slot else slot)

/-- The record transition applied when a load starts (App.tsx lines
785-794): loading status, cleared error, presence flag and lists. -/
def loadingSlotUpdate (slot : GridSlot) : GridSlot :=
  { slot with
      status := "Loading assets..."
      error := none
      hasSpine := false
      animations := []
      selectedAnimation := ""
      skins := []
      selectedSkin := "" }

/-- The record transition applied when a load completes (App.tsx lines
844-853): install scale, lists, first animation and skin, loaded status. -/
def loadedSlotUpdate (slotScale : ℚ) (animationNames skinNames : List String)
    (slot : GridSlot) : GridSlot :=
  { slot with
      scale := slotScale
      hasSpine := true
      animations := animationNames
      selectedAnimation := animationNames.headD ""
      skins := skinNames
      selectedSkin := skinNames.headD ""
      status := "Spine loaded." }

/-- The record transition of the catch branch of `loadGridSlot`
(App.tsx lines 858-863). -/
def failedSlotUpdate (message : String) (slot : GridSlot) : GridSlot :=
  { slot with
      status := "Load failed."
      error := some message
      hasSpine := false }

/-- The record transition of one `handleGridClear` iteration (App.tsx lines
951-960).  It does not touch `scale`, `isLooping` or `isPlaying`. -/
def clearSlotUpdate (slot : GridSlot) : GridSlot :=
  { slot with
      hasSpine := false
      animations := []
      selectedAnimation := ""
      skins := []
      selectedSkin := ""
      status := "Empty slot."
      error := none }

/-! ### `handleGridFillEmpty` (App.tsx lines 894-926)

The handler filters the current slot records once, then runs `loadGridSlot`
for each initially-empty slot in a `for ... await` loop: the next call
starts only after the previous one settled, and `loadGridSlot` catches its
own errors so no iteration can abort the loop.  The fold below is that
sequential loop; `outcome` supplies, per slot, either the loaded animation
and skin name lists or `none` for a failed bind. -/

/-- The `{ json, atlas, images }` descriptor passed unchanged to every
`loadGridSlot` call issued by `handleGridFillEmpty`. -/
structure FillFiles where
  jsonName : String
  atlasName : String
  imageNames : List String
deriving DecidableEq, Repr

/-- One `loadGridSlot` invocation issued by `handleGridFillEmpty`. -/
structure LoadAttempt where
  slotId : String
  files : FillFiles
  scale : ℚ
deriving DecidableEq, Repr

/-- Record-level simulation of one `loadGridSlot` call (App.tsx lines
773-865): missing slot returns unchanged; otherwise the loading update is
applied, then either the loaded update or the failed update depending on
the bind outcome.  Total: the source wraps the body in try/catch, so the
call never throws to its caller. -/
def loadGridSlotRecord (slots : List GridSlot) (slotId : String)
    (scaleOverride : Option ℚ) (outcome : Option (List String × List String)) :
    List GridSlot :=
  match slots.find? (fun slot => decide (slot.id = slotId)) with
  | none => slots
  | some snapshot =>
    let slotScale := scaleOverride.getD snapshot.scale
    let loading := updateGridSlot slots slotId loadingSlotUpdate
    match outcome with
    | some (animationNames, skinNames) =>
      updateGridSlot loading slotId (loadedSlotUpdate slotScale animationNames skinNames)
    | none =>
      updateGridSlot loading slotId (failedSlotUpdate "Failed to load spine data.")

/-- One iteration of the `handleGridFillEmpty` loop body (App.tsx lines
910-924): pre-set the fill scale on the record, then run (and await)
`loadGridSlot` with the shared files and scale, recording the attempt. -/
def fillEmptyStep (files : FillFiles) (fillScale : ℚ)
    (outcome : String → Option (List String × List String))
    (acc : List LoadAttempt × List GridSlot) (slot : GridSlot) :
    List LoadAttempt × List GridSlot :=
  let preset := updateGridSlot acc.2 slot.id
    (fun slotState => { slotState with scale := fillScale })
  (acc.1 ++ [{ slotId := slot.id, files := files, scale := fillScale }],
    loadGridSlotRecord preset slot.id (some fillScale) (outcome slot.id))

/-- Model of `handleGridFillEmpty` (App.tsx lines 894-926): filter the
currently-empty slots once, then run the sequential `for ... await` loop
over them, accumulating the attempts actually issued. -/
def handleGridFillEmpty (slots : List GridSlot) (files : FillFiles)
    (fillScale : ℚ) (outcome : String → Option (List String × List String)) :
    List LoadAttempt × List GridSlot :=
  (slots.filter (fun slot => !slot.hasSpine)).foldl
    (fillEmptyStep files fillScale outcome) ([], slots)

/-! ### The slot lifecycle as a small-step system
(App.tsx `loadGridSlot` lines 773-865, `handleGridClear` lines 928-971)

`gridSpinesRef` and `gridAssetsRef` are JavaScript `Map`s keyed by slot id;
they are modelled as association lists with `Map.set` / `Map.delete` /
`Map.get` semantics.  An atomic step of the transition relation is exactly
one synchronous block between `await` suspension points of the source:

* `loadInitBusy` — `loadGridSlot` up to the `await Assets.unload` inside the
  `existingAssets` branch (lines 778-798): snapshot, loading record update,
  the previous bundle captured.
* `loadInitFresh` — `loadGridSlot` up to `await createSpineFromFiles` when
  the slot has no bundle (lines 778-817): snapshot, loading record update,
  destruction of any orphan spine entry.
* `loadResumeUnload` — resumption after `Assets.unload` (lines 799-817):
  revoke the captured URLs, delete both table entries, start the bind.
* `loadComplete` / `loadFail` — resumption after `createSpineFromFiles`
  (lines 819-854 / 855-864).
* `clearIterSome` / `clearIterNone` — one iteration of the
  `handleGridClear` loop (lines 934-960), resuming after its
  `await Assets.unload` when the slot had a bundle.

The scheduler is left free: steps of different in-flight operations may
interleave arbitrarily, which is what the browser event loop allows.  The
source has no generation counter, so nothing guards a completion against a
newer load on the same slot. -/

/-- `Map.get` on an association list keyed by slot id. -/
def mget {α : Type} : List (String × α) → String → Option α
  | [], _ => none
  | p :: rest, k => if p.1 = k then some p.2 else mget rest k

/-- `Map.set` on an association list: replace in place or append. -/
def mset {α : Type} : List (String × α) → String → α → List (String × α)
  | [], k, v => [(k, v)]
  | p :: rest, k, v =>
    if p.1 = k then (k, v) :: rest else p :: mset rest k v

/-- `Map.delete` on an association list. -/
def mdel {α : Type} : List (String × α) → String → List (String × α)
  | [], _ => []
  | p :: rest, k => if p.1 = k then mdel rest k else p :: mdel rest k

/-- Removal of a batch of keys or URLs from the external registry
(`Assets.unload(keys)` / `URL.revokeObjectURL` over a list). -/
def removeAllStr (l removed : List String) : List String :=
  l.filter (fun x => !(removed.contains x))

/-- A `loadGridSlot` call suspended on `await`: the captured slot id, the
resolved `slotScale` (`scaleOverride ?? slotSnapshot.scale`, line 784) and
the loop and play flags of the snapshot (used at completion, lines 835-842). -/
structure PendingTask where
  tid : Nat
  slotId : String
  slotScale : ℚ
  isLooping : Bool
  isPlaying : Bool
deriving DecidableEq, Repr

/-- Which suspension point a pending `loadGridSlot` call sits at. -/
inductive LoadPhase where
  | waitingUnload (captured : LoadedAssets)
  | waitingCreate
deriving DecidableEq, Repr

/-- The shared mutable state of the grid lifecycle: the two slot-keyed
tables, the slot records, the external asset-manager registry, the live
object URLs, and the suspended `loadGridSlot` calls. -/
structure CoreState where
  gridSpines : List (String × Nat)
  gridAssets : List (String × LoadedAssets)
  gridSlots : List GridSlot
  registeredKeys : List String
  liveUrls : List String
  pending : List (PendingTask × LoadPhase)
deriving DecidableEq, Repr

/-- Effect of `loadGridSlot`'s first block when the slot has no bundle
(App.tsx lines 778-817 with lines 797-801 skipped): loading record update,
orphan spine destroyed, the bind started. -/
def loadInitFreshState (s : CoreState) (t : PendingTask) : CoreState :=
  { s with
      gridSlots := updateGridSlot s.gridSlots t.slotId loadingSlotUpdate
      gridSpines := mdel s.gridSpines t.slotId
      pending := s.pending ++ [(t, LoadPhase.waitingCreate)] }

/-- Effect of `loadGridSlot`'s first block when the slot holds a bundle
(App.tsx lines 778-798): loading record update, the bundle captured, the
unload awaited. -/
def loadInitBusyState (s : CoreState) (t : PendingTask)
    (captured : LoadedAssets) : CoreState :=
  { s with
      gridSlots := updateGridSlot s.gridSlots t.slotId loadingSlotUpdate
      pending := s.pending ++ [(t, LoadPhase.waitingUnload captured)] }

/-- Effect of resuming after `await Assets.unload` inside `loadGridSlot`
(App.tsx lines 799-817): captured keys unloaded, captured URLs revoked,
both table entries deleted, the bind started. -/
def loadResumeUnloadState (s : CoreState)
    (pre post : List (PendingTask × LoadPhase)) (t : PendingTask)
    (captured : LoadedAssets) : CoreState :=
  { s with
      registeredKeys := removeAllStr s.registeredKeys captured.keys
      liveUrls := removeAllStr s.liveUrls captured.urls
      gridAssets := mdel s.gridAssets t.slotId
      gridSpines := mdel s.gridSpines t.slotId
      pending := pre ++ (t, LoadPhase.waitingCreate) :: post }

/-- Effect of a successful bind resumption (App.tsx lines 819-854): both
table entries installed, the new bundle's keys and URLs now live, the
loaded record update applied.  Nothing here consults any generation; the
installation is unconditional. -/
def loadCompleteState (s : CoreState)
    (pre post : List (PendingTask × LoadPhase)) (t : PendingTask)
    (handle : Nat) (bundle : LoadedAssets)
    (animationNames skinNames : List String) : CoreState :=
  { s with
      gridSpines := mset s.gridSpines t.slotId handle
      gridAssets := mset s.gridAssets t.slotId bundle
      registeredKeys := s.registeredKeys ++ bundle.keys
      liveUrls := s.liveUrls ++ bundle.urls
      gridSlots := updateGridSlot s.gridSlots t.slotId
        (loadedSlotUpdate t.slotScale animationNames skinNames)
      pending := pre ++ post }

/-- Effect of a failed bind resumption, the catch branch of `loadGridSlot`
(App.tsx lines 855-864). -/
def loadFailState (s : CoreState)
    (pre post : List (PendingTask × LoadPhase)) (t : PendingTask)
    (message : String) : CoreState :=
  { s with
      gridSlots := updateGridSlot s.gridSlots t.slotId (failedSlotUpdate message)
      pending := pre ++ post }

/-- Effect of one `handleGridClear` iteration over a slot whose bundle was
captured before the `await Assets.unload` suspension (App.tsx lines
934-960): keys unloaded, URLs revoked, both table entries deleted, the
clear record update applied. -/
def clearIterSomeState (s : CoreState) (slotId : String)
    (captured : LoadedAssets) : CoreState :=
  { s with
      registeredKeys := removeAllStr s.registeredKeys captured.keys
      liveUrls := removeAllStr s.liveUrls captured.urls
      gridAssets := mdel s.gridAssets slotId
      gridSpines := mdel s.gridSpines slotId
      gridSlots := updateGridSlot s.gridSlots slotId clearSlotUpdate }

/-- Effect of one `handleGridClear` iteration over a slot with no bundle
(App.tsx lines 934-960 with lines 936-940 skipped): no unload, spine entry
deleted if present, the clear record update applied. -/
def clearIterNoneState (s : CoreState) (slotId : String) : CoreState :=
  { s with
      gridSpines := mdel s.gridSpines slotId
      gridSlots := updateGridSlot s.gridSlots slotId clearSlotUpdate }

/-- One atomic step of the grid lifecycle: a synchronous block between
`await` suspension points of `loadGridSlot` or `handleGridClear`, under a
free interleaving of in-flight operations. -/
inductive Step : CoreState → CoreState → Prop where
  | loadInitFresh (s : CoreState) (tid : Nat) (slotId : String)
      (scaleOverride : Option ℚ) (snapshot : GridSlot)
      (hfind : s.gridSlots.find? (fun slot => decide (slot.id = slotId))
        = some snapshot)
      (hassets : mget s.gridAssets slotId = none) :
      Step s (loadInitFreshState s
        ⟨tid, slotId, scaleOverride.getD snapshot.scale,
          snapshot.isLooping, snapshot.isPlaying⟩)
  | loadInitBusy (s : CoreState) (tid : Nat) (slotId : String)
      (scaleOverride : Option ℚ) (snapshot : GridSlot)
      (captured : LoadedAssets)
      (hfind : s.gridSlots.find? (fun slot => decide (slot.id = slotId))
        = some snapshot)
      (hassets : mget s.gridAssets slotId = some captured) :
      Step s (loadInitBusyState s
        ⟨tid, slotId, scaleOverride.getD snapshot.scale,
          snapshot.isLooping, snapshot.isPlaying⟩ captured)
  | loadResumeUnload (s : CoreState)
      (pre post : List (PendingTask × LoadPhase)) (t : PendingTask)
      (captured : LoadedAssets)
      (hpend : s.pending = pre ++ (t, LoadPhase.waitingUnload captured) :: post) :
      Step s (loadResumeUnloadState s pre post t captured)
  | loadComplete (s : CoreState)
      (pre post : List (PendingTask × LoadPhase)) (t : PendingTask)
      (handle : Nat) (bundle : LoadedAssets)
      (animationNames skinNames : List String)
      (hpend : s.pending = pre ++ (t, LoadPhase.waitingCreate) :: post) :
      Step s (loadCompleteState s pre post t handle bundle animationNames skinNames)
  | loadFail (s : CoreState)
      (pre post : List (PendingTask × LoadPhase)) (t : PendingTask)
      (message : String)
      (hpend : s.pending = pre ++ (t, LoadPhase.waitingCreate) :: post) :
      Step s (loadFailState s pre post t message)
  | clearIterSome (s : CoreState) (slotId : String) (captured : LoadedAssets) :
      Step s (clearIterSomeState s slotId captured)
  | clearIterNone (s : CoreState) (slotId : String)
      (hassets : mget s.gridAssets slotId = none) :
      Step s (clearIterNoneState s slotId)

/-- The per-slot table invariant of spec section 3: the slot has a spine
instance exactly when it has an asset bundle. -/
def Consistent (s : CoreState) : Prop :=
  ∀ slotId : String,
    (mget s.gridSpines slotId).isSome ↔ (mget s.gridAssets slotId).isSome

/-! ### Outline visibility (App.tsx lines 146-158, 199-220, 329-333,
399-403, 479-497)

Outline visibility lives in two places: the React state `showGridOutlines`
(drives the toggle button's label, line 1167) and the imperative mirror
`showGridOutlinesRef.current` consulted by the render loop.  Each outline
`Graphics` object is modelled by a drawn flag: `false` after `clear()`,
`true` after `updateBoundsOutline` strokes it. -/

/-- The outline-relevant mutable state. -/
structure OutlineState where
  showGridOutlines : Bool
  showGridOutlinesRefCur : Bool
  gridOutlines : List (String × Bool)
  gridSpines : List String
  isGridMode : Bool
deriving DecidableEq, Repr

/-- Model of `disableGridOutlines` (App.tsx lines 214-220): no-op when the
ref is already false; otherwise set the ref to false and `clear()` every
outline graphic.  The React state is not touched. -/
def disableGridOutlines (s : OutlineState) : OutlineState :=
  if s.showGridOutlinesRefCur = false then s
  else
    { s with
        showGridOutlinesRefCur := false
        gridOutlines := s.gridOutlines.map (fun p => (p.1, false)) }

/-- The outline-handling prefix of the canvas `pointerdown` handler (App.tsx lines
399-403) and of the grid-guide `pointerdown` handler (lines 329-333): in
grid mode, `disableGridOutlines()` runs before any hit testing. -/
def pointerdownOutlinePart (s : OutlineState) : OutlineState :=
  if s.isGridMode then disableGridOutlines s else s

/-- Model of `ensureGridOutline` (App.tsx lines 199-212): no-op when the
ref is false or an outline already exists; otherwise add a fresh (blank)
outline graphic. -/
def ensureGridOutline (s : OutlineState) (slotId : String) : OutlineState :=
  if s.showGridOutlinesRefCur = false then s
  else if (s.gridOutlines.find? (fun p => decide (p.1 = slotId))).isSome then s
  else { s with gridOutlines := s.gridOutlines ++ [(slotId, false)] }

/-- Model of the `showGridOutlines` effect (App.tsx lines 146-158): mirror
the React state into the ref, then either clear every outline or ensure an
outline for each bound slot. -/
def setShowGridOutlinesEffect (next : Bool) (s : OutlineState) : OutlineState :=
  let s1 := { s with showGridOutlines := next, showGridOutlinesRefCur := next }
  if next = false then
    { s1 with gridOutlines := s1.gridOutlines.map (fun p => (p.1, false)) }
  else
    s1.gridSpines.foldl (fun acc slotId => ensureGridOutline acc slotId) s1

/-- The grid branch of the render-loop tick (App.tsx lines 487-496): when
the ref is true, stroke the outline of every bound slot that has one. -/
def tickerOutlinePass (s : OutlineState) : OutlineState :=
  if s.isGridMode && s.showGridOutlinesRefCur then
    { s with
        gridOutlines := s.gridOutlines.map (fun p =>
          if s.gridSpines.contains p.1 then (p.1, true) else p) }
  else s

/-- The outline-relevant events of the application. -/
inductive OutlineEvent where
  | pointerDown
  | toggleOutlines
  | tick
  | bindSlot (slotId : String)
deriving DecidableEq, Repr

/-- Event dispatch: a `pointerdown` on the canvas or grid guide, a press of
the outlines toggle button (`setShowGridOutlines (prev => !prev)`, line
1165, plus its effect), a render-loop tick, or a successful grid load
(which registers the spine and calls `ensureGridOutline`, lines 821-823). -/
def outlineStep : OutlineEvent → OutlineState → OutlineState
  | OutlineEvent.pointerDown, s => pointerdownOutlinePart s
  | OutlineEvent.toggleOutlines, s => setShowGridOutlinesEffect (!s.showGridOutlines) s
  | OutlineEvent.tick, s => tickerOutlinePass s
  | OutlineEvent.bindSlot slotId, s =>
    ensureGridOutline { s with gridSpines := s.gridSpines ++ [slotId] } slotId

/-- When the internal ref is off, every outline graphic is blank.  This is
maintained by every event since the ticker strokes outlines only while the
ref is true. -/
def OutlinesOffInvariant (s : OutlineState) : Prop :=
  s.showGridOutlinesRefCur = false → ∀ p ∈ s.gridOutlines, p.2 = false

instance (s : OutlineState) : Decidable (OutlinesOffInvariant s) := by
  unfold OutlinesOffInvariant
  exact inferInstance

/-! ### Concrete scenario data -/

/-- A healthy environment for bind scenarios. -/
def goodEnv : BindEnv :=
  { assetSuffix := "k1", jsonUrl := "blob:json", atlasUrl := "blob:atlas",
    decodeOk := true, loadOk := true,
    animationNames := ["idle"], skinNames := ["default"] }

/-- An environment whose external `Assets.load` rejects. -/
def loadFailEnv : BindEnv :=
  { assetSuffix := "f1", jsonUrl := "blob:json-f", atlasUrl := "blob:atlas-f",
    decodeOk := true, loadOk := false,
    animationNames := [], skinNames := [] }

/-- A single-page bind input whose image name matches the page name. -/
def c3Files : BindFiles :=
  { jsonName := "skeleton.json", atlasText := "page.png\nsize: 128,128",
    images := [{ name := "page.png" }] }

/-- An atlas declaring the extensionless page names of the C5 scenario. -/
def c5AtlasNoExt : String := "page1\nsize: 1024,1024\npage2\nsize: 1024,1024"

/-- The C5 scenario input: extensionless page names, `.png` image names. -/
def c5Files : BindFiles :=
  { jsonName := "skeleton.json", atlasText := c5AtlasNoExt,
    images := [{ name := "page1.png" }, { name := "page2.png" }] }

/-- An atlas whose declared page names carry the `.png` extension, so they
can match the supplied image file names exactly. -/
def c5AtlasExt : String := "page1.png\nsize: 1024,1024\npage2.png\nsize: 1024,1024"

/-- Two-page atlas with both matching images supplied. -/
def c5GoodFiles : BindFiles :=
  { jsonName := "skeleton.json", atlasText := c5AtlasExt,
    images := [{ name := "page1.png" }, { name := "page2.png" }] }

/-- Two-page atlas with only the first image supplied. -/
def c5OneImageFiles : BindFiles :=
  { jsonName := "skeleton.json", atlasText := c5AtlasExt,
    images := [{ name := "page1.png" }] }

/-- A fresh missing-page input used to instantiate the general part of the
amended C5 statement. -/
def c5WitnessFiles : BindFiles :=
  { jsonName := "s.json", atlasText := "a.png\nsize: 1,1\nb.png\nsize: 1,1",
    images := [{ name := "a.png" }] }

/-- Single-page atlas bound with an image whose name does not match the
declared page name. -/
def c9Files : BindFiles :=
  { jsonName := "skeleton.json", atlasText := "whatever.png\nsize: 64,64",
    images := [{ name := "name-does-not-match.png" }] }

/-- Metrics for a 1200-by-1200 viewport with 120-unit cells: the grid spans
`[300, 900)` on both axes. -/
def c4Metrics : GridMetrics := getGridMetrics 1200 1200 120

/-- The 25-slot grid with three slots pre-bound, for the C7 scenario. -/
def c7PreboundGrid : List GridSlot :=
  updateGridSlot (updateGridSlot (updateGridSlot initialGridSlots "slot-0-0"
    (fun slot => { slot with hasSpine := true })) "slot-1-2"
    (fun slot => { slot with hasSpine := true })) "slot-3-4"
    (fun slot => { slot with hasSpine := true })

/-- The record a cleared slot actually reaches, written from the spec's
empty-slot defaults with the three preserved fields substituted: the
clear update equals the initial record except that `scale`, `isLooping`
and `isPlaying` keep their current values. -/
def clearDefaults (slot : GridSlot) : GridSlot :=
  { initialSlot slot.row slot.col with
      id := slot.id, label := slot.label,
      isLooping := slot.isLooping, isPlaying := slot.isPlaying,
      scale := slot.scale }

/-- A bound slot used to witness the amended C8 statement. -/
def c8Bundle : LoadedAssets :=
  { keys := ["spine-skeleton-slot-0-0-c8", "spine-atlas-slot-0-0-c8"],
    urls := ["blob:json-c8", "blob:atlas-c8"] }

/-- A state with one bound slot whose bundle is registered and whose URLs
are live. -/
def c8State : CoreState :=
  { gridSpines := [("slot-0-0", 7)], gridAssets := [("slot-0-0", c8Bundle)],
    gridSlots := initialGridSlots, registeredKeys := c8Bundle.keys,
    liveUrls := c8Bundle.urls, pending := [] }

/-! ### The double-load race (claim C1)

Two `loadGridSlot` calls are issued in rapid succession on slot
`slot-0-0` of a fresh grid: task 1 first, task 2 second.  Both snapshot an
empty slot, so both go straight to `createSpineFromFiles`.  Nothing in the
source records which call is newer — `GridSlot` has no generation counter —
so each completion installs its result unconditionally, and whichever
completes last is the one left installed. -/

/-- The application's initial grid lifecycle state. -/
def initialCoreState : CoreState :=
  { gridSpines := [], gridAssets := [], gridSlots := initialGridSlots,
    registeredKeys := [], liveUrls := [], pending := [] }

/-- Bundle produced for the first-issued load. -/
def c1Bundle1 : LoadedAssets :=
  { keys := ["spine-skeleton-slot-0-0-g1", "spine-atlas-slot-0-0-g1"],
    urls := ["blob:json-g1", "blob:atlas-g1"] }

/-- Bundle produced for the second-issued load. -/
def c1Bundle2 : LoadedAssets :=
  { keys := ["spine-skeleton-slot-0-0-g2", "spine-atlas-slot-0-0-g2"],
    urls := ["blob:json-g2", "blob:atlas-g2"] }

/-- The first-issued load's suspended call. -/
def c1Task1 : PendingTask :=
  { tid := 1, slotId := "slot-0-0", slotScale := 1,
    isLooping := true, isPlaying := true }

/-- The second-issued load's suspended call. -/
def c1Task2 : PendingTask :=
  { tid := 2, slotId := "slot-0-0", slotScale := 1,
    isLooping := true, isPlaying := true }

/-- After the first load is initiated. -/
def c1s1 : CoreState := loadInitFreshState initialCoreState c1Task1

/-- After the second load is initiated, both binds in flight. -/
def c1s2 : CoreState := loadInitFreshState c1s1 c1Task2

/-- Completion order two-then-one: the second load completes first. -/
def c1s3 : CoreState :=
  loadCompleteState c1s2 [(c1Task1, LoadPhase.waitingCreate)] [] c1Task2 2
    c1Bundle2 ["idle"] ["default"]

/-- ... and then the first load completes, overwriting the second. -/
def c1s4 : CoreState :=
  loadCompleteState c1s3 [] [] c1Task1 1 c1Bundle1 ["idle"] ["default"]

/-- Completion order one-then-two: the first load completes first. -/
def c1t3 : CoreState :=
  loadCompleteState c1s2 [] [(c1Task2, LoadPhase.waitingCreate)] c1Task1 1
    c1Bundle1 ["idle"] ["default"]

/-- ... and then the second load completes, overwriting the first. -/
def c1t4 : CoreState :=
  loadCompleteState c1t3 [] [] c1Task2 2 c1Bundle2 ["idle"] ["default"]

/-- A grid-mode state with one bound slot, its outline drawn, and both
visibility flags on — the state right after a fresh load with outlines
enabled. -/
def c10DemoState : OutlineState :=
  { showGridOutlines := true, showGridOutlinesRefCur := true,
    gridOutlines := [("slot-0-0", true)], gridSpines := ["slot-0-0"],
    isGridMode := true }

/-! ### Helper lemmas -/

theorem specCandidateAt_zero (l : List Char) (rest : List (List Char)) :
    specCandidateAt (l :: rest) 0
      = (!(trimChar l).isEmpty && !(trimChar l).contains ':'
          && charPrefixOf "size:".data (nextNonemptyLine rest)) := by
  unfold specCandidateAt nextNonemptyLine
  simp only [List.getD_cons_zero, List.drop_succ_cons, List.drop_zero]
  cases hfind : ((rest.map trimChar).find? (fun c => !c.isEmpty)) with
  | none =>
    have h0 : charPrefixOf "size:".data [] = false := by decide
    simp [h0]
  | some nxt => simp

theorem specOver_cons (l : List Char) (rest : List (List Char)) :
    specOver (l :: rest)
      = if specCandidateAt (l :: rest) 0 then
          String.mk (trimChar l) :: specOver rest
        else specOver rest := by
  have hmap : ((List.range rest.length).map Nat.succ).filterMap (fun i =>
      if specCandidateAt (l :: rest) i then
        some (String.mk (trimChar ((l :: rest).getD i []))) else none)
      = (List.range rest.length).filterMap (fun i =>
          if specCandidateAt rest i then
            some (String.mk (trimChar (rest.getD i []))) else none) := by
    rw [List.filterMap_map]
    rfl
  show (List.range (l :: rest).length).filterMap _ = _
  rw [List.length_cons, List.range_succ_eq_map, List.filterMap_cons, hmap]
  cases hc : specCandidateAt (l :: rest) 0 with
  | false => simp only [hc, Bool.false_eq_true, if_false]; rfl
  | true => simp only [hc, if_true]; rfl

theorem extractLoop_eq_specOver (lines : List (List Char)) :
    extractLoop lines = specOver lines := by
  induction lines with
  | nil => rfl
  | cons l rest ih =>
    rw [specOver_cons, specCandidateAt_zero, ← ih]
    show (if ((trimChar l).isEmpty || (trimChar l).contains ':') = true then
            extractLoop rest
          else if charPrefixOf "size:".data (nextNonemptyLine rest) = true then
            String.mk (trimChar l) :: extractLoop rest
          else extractLoop rest) = _
    cases he : (trimChar l).isEmpty with
    | true => simp [he]
    | false =>
      cases hc : (trimChar l).contains ':' with
      | true => simp [hc]
      | false =>
        cases hs : charPrefixOf "size:".data (nextNonemptyLine rest) with
        | true => simp [he, hc, hs]
        | false => simp [he, hc, hs]

theorem extractAtlasPageNames_eq_spec (t : String) :
    extractAtlasPageNames t = specPageNames t :=
  extractLoop_eq_specOver (splitLinesRN t)

theorem mget_mset {α : Type} (m : List (String × α)) (k k' : String) (v : α) :
    mget (mset m k v) k' = if k' = k then some v else mget m k' := by
  induction m with
  | nil =>
    simp only [mset, mget]
    by_cases h : k' = k
    · rw [if_pos h.symm, if_pos h]
    · rw [if_neg (fun hc : k = k' => h hc.symm), if_neg h]
  | cons p rest ih =>
    by_cases hp : p.1 = k
    · simp only [mset, if_pos hp, mget]
      by_cases h : k' = k
      · rw [if_pos h.symm, if_pos h]
      · rw [if_neg (fun hc : k = k' => h hc.symm), if_neg h]
        rw [if_neg (fun hc : p.1 = k' => h (hc.symm.trans hp))]
    · simp only [mset, if_neg hp, mget]
      by_cases hpk : p.1 = k'
      · have h : ¬ k' = k := fun hc => hp (hpk.trans hc)
        rw [if_pos hpk, if_neg h, if_pos hpk]
      · rw [if_neg hpk, ih, if_neg hpk]

theorem mget_mdel {α : Type} (m : List (String × α)) (k k' : String) :
    mget (mdel m k) k' = if k' = k then none else mget m k' := by
  induction m with
  | nil =>
    simp only [mdel, mget]
    by_cases h : k' = k
    · rw [if_pos h]
    · rw [if_neg h]
  | cons p rest ih =>
    by_cases hp : p.1 = k
    · simp only [mdel, if_pos hp]
      rw [ih]
      by_cases h : k' = k
      · rw [if_pos h, if_pos h]
      · rw [if_neg h, if_neg h]
        simp only [mget]
        rw [if_neg (fun hc : p.1 = k' => h (hc.symm.trans hp))]
    · simp only [mdel, if_neg hp, mget]
      by_cases hpk : p.1 = k'
      · have h : ¬ k' = k := fun hc => hp (hpk.trans hc)
        rw [if_pos hpk, if_neg h, if_pos hpk]
      · rw [if_neg hpk, ih, if_neg hpk]

theorem not_mem_removeAllStr {l removed : List String} {x : String}
    (hx : x ∈ removed) : x ∉ removeAllStr l removed := by
  intro hmem
  have hpred := List.of_mem_filter hmem
  simp only [Bool.not_eq_true'] at hpred
  have hcontains : removed.contains x = true := List.elem_iff.mpr hx
  rw [hpred] at hcontains
  exact Bool.false_ne_true hcontains

theorem step_preserves_consistent {s s2 : CoreState} (hstep : Step s s2)
    (hc : Consistent s) : Consistent s2 := by
  cases hstep with
  | loadInitFresh tid slotId scaleOverride snapshot hfind hassets =>
    intro id
    simp only [loadInitFreshState, mget_mdel]
    by_cases h : id = slotId
    · subst h
      simp [hassets]
    · simp only [if_neg h]
      exact hc id
  | loadInitBusy tid slotId scaleOverride snapshot captured hfind hassets =>
    intro id
    exact hc id
  | loadResumeUnload pre post t captured hpend =>
    intro id
    simp only [loadResumeUnloadState, mget_mdel]
    by_cases h : id = t.slotId
    · simp [h]
    · simp only [if_neg h]
      exact hc id
  | loadComplete pre post t handle bundle animationNames skinNames hpend =>
    intro id
    simp only [loadCompleteState, mget_mset]
    by_cases h : id = t.slotId
    · simp [h]
    · simp only [if_neg h]
      exact hc id
  | loadFail pre post t message hpend =>
    intro id
    exact hc id
  | clearIterSome slotId captured =>
    intro id
    simp only [clearIterSomeState, mget_mdel]
    by_cases h : id = slotId
    · simp [h]
    · simp only [if_neg h]
      exact hc id
  | clearIterNone slotId hassets =>
    intro id
    simp only [clearIterNoneState, mget_mdel]
    by_cases h : id = slotId
    · subst h
      simp [hassets]
    · simp only [if_neg h]
      exact hc id

theorem outlineStep_preserves_invariant (e : OutlineEvent) (s : OutlineState)
    (hinv : OutlinesOffInvariant s) : OutlinesOffInvariant (outlineStep e s) := by
  cases e with
  | pointerDown =>
    simp only [outlineStep, pointerdownOutlinePart, disableGridOutlines]
    by_cases hm : s.isGridMode
    · simp only [if_pos hm]
      by_cases hr : s.showGridOutlinesRefCur = false
      · simp only [if_pos hr]
        exact hinv
      · simp only [if_neg hr]
        intro _ p hp
        rcases List.mem_map.mp hp with ⟨q, _, hq⟩
        exact hq ▸ rfl
    · simp only [if_neg hm]
      exact hinv
  | toggleOutlines =>
    simp only [outlineStep, setShowGridOutlinesEffect]
    by_cases hn : (!s.showGridOutlines) = false
    · simp only [if_pos hn]
      intro _ p hp
      rcases List.mem_map.mp hp with ⟨q, _, hq⟩
      exact hq ▸ rfl
    · simp only [if_neg hn]
      have hb : (!s.showGridOutlines) = true := by
        cases hval : !s.showGridOutlines
        · exact absurd hval hn
        · rfl
      intro hfalse
      exfalso
      have hcur : ∀ (l : List String) (s0 : OutlineState),
          s0.showGridOutlinesRefCur = true →
          (l.foldl (fun acc slotId => ensureGridOutline acc slotId)
            s0).showGridOutlinesRefCur = true := by
        intro l
        induction l with
        | nil => intro s0 h0; exact h0
        | cons a rest ih =>
          intro s0 h0
          refine ih _ ?_
          simp only [ensureGridOutline]
          by_cases h1 : s0.showGridOutlinesRefCur = false
          · rw [h0] at h1; exact Bool.noConfusion h1
          · simp only [if_neg h1]
            by_cases h2 : ((s0.gridOutlines.find?
                (fun p => decide (p.1 = a))).isSome : Prop)
            · simp only [if_pos h2]; exact h0
            · simp only [if_neg h2]; exact h0
      have := hcur s.gridSpines
        { s with showGridOutlines := !s.showGridOutlines,
                 showGridOutlinesRefCur := !s.showGridOutlines } (by simp [hb])
      rw [hfalse] at this
      exact Bool.false_ne_true this
  | tick =>
    simp only [outlineStep, tickerOutlinePass]
    by_cases hcond : (s.isGridMode && s.showGridOutlinesRefCur) = true
    · simp only [if_pos hcond]
      intro hfalse
      exfalso
      have hr : s.showGridOutlinesRefCur = true := by
        simp only [Bool.and_eq_true] at hcond
        exact hcond.2
      rw [hfalse] at hr
      exact Bool.false_ne_true hr
    · simp only [if_neg hcond]
      exact hinv
  | bindSlot slotId =>
    simp only [outlineStep, ensureGridOutline]
    by_cases hr : s.showGridOutlinesRefCur = false
    · simp only [if_pos hr]
      intro _ p hp
      exact hinv hr p hp
    · simp only [if_neg hr]
      by_cases h2 : (({ s with gridSpines := s.gridSpines ++ [slotId] }
          : OutlineState).gridOutlines.find?
          (fun p => decide (p.1 = slotId))).isSome = true
      · simp only [if_pos h2]
        intro h3 p hp
        exact hinv h3 p hp
      · simp only [if_neg h2]
        intro h3 p hp
        rcases List.mem_append.mp hp with hp1 | hp1
        · exact hinv h3 p hp1
        · rcases List.mem_singleton.mp hp1 with rfl
          rfl

/-! ### Claim theorems -/

/-- C6: for every atlas text the parser returns, in declaration order with
duplicates preserved, exactly the non-empty lines containing no colon whose
next non-empty line begins with `size:` (the spec-side characterisation
`specPageNames`); when that list is empty the bind fails with the
`MalformedAtlas` error.  The parser is a pure Lean function, hence
deterministic and side-effect free by construction. -/
theorem c6_parser_contract (t : String) :
    extractAtlasPageNames t = specPageNames t ∧
    (extractAtlasPageNames t = [] →
      ∀ (jsonName : String) (images : List ImageFile) (assetPrefix : String)
        (env : BindEnv),
        (createSpineFromFiles
            { jsonName := jsonName, atlasText := t, images := images }
            assetPrefix env).result
          = Except.error BindError.malformedAtlas) := by
  refine ⟨extractAtlasPageNames_eq_spec t, ?_⟩
  intro hempty jsonName images assetPrefix env
  simp [createSpineFromFiles, hempty]

/-- Witness for C6 at a concrete atlas text with no valid page declaration. -/
theorem c6_witness :
    extractAtlasPageNames "format: RGBA8888" = specPageNames "format: RGBA8888" ∧
    (createSpineFromFiles
        { jsonName := "s.json", atlasText := "format: RGBA8888", images := [] }
        "single" goodEnv).result
      = Except.error BindError.malformedAtlas := by
  refine ⟨(c6_parser_contract "format: RGBA8888").1, ?_⟩
  exact (c6_parser_contract "format: RGBA8888").2 (by decide) "s.json" [] "single" goodEnv

/-- C5 counterexample: the claim's first scenario fails on the code.  The
parser extracts `["page1", "page2"]` from an atlas declaring those
extensionless page names, and binding with images named `"page1.png"` and
`"page2.png"` does not succeed: name matching is exact, so both pages are
reported missing (and the claimed `MissingPages(["page2"])` for the
one-image variant is likewise wrong, as the full list is reported). -/
theorem c5_counterexample :
    extractAtlasPageNames c5AtlasNoExt = ["page1", "page2"] ∧
    (createSpineFromFiles c5Files "slot-0-0" goodEnv).result
      = Except.error (BindError.missingPages ["page1", "page2"]) := by
  exact ⟨by decide, by decide⟩

/-- C5 amended: binding requires every atlas page name to have an image
whose name matches it exactly — extension included — and missing names fail
with `MissingPages` listing every unmatched declared page, leaving zero
registrations and zero created URLs.  With the page names declared as
`"page1.png"` and `"page2.png"`: supplying both images binds successfully
with two entries registered; supplying only `"page1.png"` fails with
`MissingPages(["page2.png"])` and zero registrations. -/
theorem c5_amended_exact_matching :
    (∀ (files : BindFiles) (assetPrefix : String) (env : BindEnv),
      ¬ (extractAtlasPageNames files.atlasText).length = 0 →
      ¬ ((extractAtlasPageNames files.atlasText).length ≤ 1 ∧
          files.images.length = 1) →
      ∀ missing : List String,
        missing = (extractAtlasPageNames files.atlasText).filter
          (fun n => !((files.images.map ImageFile.name).contains n)) →
        missing ≠ [] →
        (createSpineFromFiles files assetPrefix env).result
          = Except.error (BindError.missingPages missing) ∧
        (createSpineFromFiles files assetPrefix env).registeredKeys = [] ∧
        (createSpineFromFiles files assetPrefix env).createdUrls = []) ∧
    (createSpineFromFiles c5GoodFiles "slot-0-0" goodEnv).result
      = Except.ok
          { assets := { keys := ["spine-skeleton-slot-0-0-k1",
                                 "spine-atlas-slot-0-0-k1"],
                        urls := ["blob:json", "blob:atlas"] },
            animationNames := ["idle"], skinNames := ["default"] } ∧
    (createSpineFromFiles c5GoodFiles "slot-0-0" goodEnv).registeredKeys.length = 2 ∧
    (createSpineFromFiles c5OneImageFiles "slot-0-0" goodEnv).result
      = Except.error (BindError.missingPages ["page2.png"]) ∧
    (createSpineFromFiles c5OneImageFiles "slot-0-0" goodEnv).registeredKeys = [] := by
  refine ⟨?_, by decide, by decide, by decide, by decide⟩
  intro files assetPrefix env h0 h1 missing hmissing hne
  have hempty : (((extractAtlasPageNames files.atlasText).filter
      (fun n => !((files.images.map ImageFile.name).contains n))).isEmpty) = false := by
    rw [← hmissing]
    cases missing with
    | nil => exact absurd rfl hne
    | cons a rest => rfl
  subst hmissing
  unfold createSpineFromFiles
  rw [if_neg h0, if_neg h1, if_neg (by rw [hempty]; exact Bool.noConfusion)]
  exact ⟨rfl, rfl, rfl⟩

/-- Witness for the general part of the amended C5 statement at a fresh
concrete input: pages `["a.png", "b.png"]`, one image `"a.png"`. -/
theorem c5_amended_witness :
    (createSpineFromFiles c5WitnessFiles "w" goodEnv).result
      = Except.error (BindError.missingPages ["b.png"]) := by
  have h := c5_amended_exact_matching.1 c5WitnessFiles "w" goodEnv
    (by decide) (by decide) ["b.png"] (by decide) (by decide)
  exact h.1

/-- C3 counterexample: a bind that fails after registration (the external
`Assets.load` rejects) leaves both registration keys live when the error
propagates: the catch block of `createSpineFromFiles` (App.tsx lines
666-669) revokes the object URLs but never unregisters the two added
aliases. -/
theorem c3_counterexample :
    (createSpineFromFiles c3Files "single" loadFailEnv).result
      = Except.error BindError.loadFailure ∧
    (createSpineFromFiles c3Files "single" loadFailEnv).registeredKeys
      = ["spine-skeleton-single-f1", "spine-atlas-single-f1"] ∧
    (createSpineFromFiles c3Files "single" loadFailEnv).registeredKeys ≠ [] := by
  exact ⟨by decide, by decide, by decide⟩

/-- C3 amended: for every bind attempt that fails at or after registration,
every transient object URL created for the attempt is revoked before the
error propagates, but the two registration keys are not released: they
remain registered in the external asset manager. -/
theorem c3_amended_partial_unwind (files : BindFiles) (assetPrefix : String)
    (env : BindEnv)
    (hpages : ¬ (extractAtlasPageNames files.atlasText).length = 0)
    (hreach : ((extractAtlasPageNames files.atlasText).length ≤ 1 ∧
        files.images.length = 1)
      ∨ ((extractAtlasPageNames files.atlasText).filter
          (fun n => !((files.images.map ImageFile.name).contains n))).isEmpty = true)
    (hdecode : env.decodeOk = true)
    (hload : env.loadOk = false) :
    (createSpineFromFiles files assetPrefix env).result
      = Except.error BindError.loadFailure ∧
    (createSpineFromFiles files assetPrefix env).revokedUrls
      = (createSpineFromFiles files assetPrefix env).createdUrls ∧
    (createSpineFromFiles files assetPrefix env).createdUrls
      = [env.jsonUrl, env.atlasUrl] ∧
    (createSpineFromFiles files assetPrefix env).registeredKeys
      = ["spine-skeleton-" ++ (assetPrefix ++ "-" ++ env.assetSuffix),
         "spine-atlas-" ++ (assetPrefix ++ "-" ++ env.assetSuffix)] := by
  have hbind : createSpineFromFiles files assetPrefix env
      = bindRegisterAndLoad assetPrefix env := by
    unfold createSpineFromFiles
    rcases hreach with h1 | h1
    · rw [if_neg hpages, if_pos h1, if_pos hdecode]
    · by_cases h2 : (extractAtlasPageNames files.atlasText).length ≤ 1 ∧
          files.images.length = 1
      · rw [if_neg hpages, if_pos h2, if_pos hdecode]
      · rw [if_neg hpages, if_neg h2, if_pos h1, if_pos hdecode]
  rw [hbind]
  unfold bindRegisterAndLoad
  rw [if_neg (by rw [hload]; exact Bool.noConfusion)]
  exact ⟨rfl, rfl, rfl, rfl⟩

/-- Witness for the amended C3 statement at a concrete failing load. -/
theorem c3_amended_witness :
    (createSpineFromFiles c3Files "single" loadFailEnv).revokedUrls
      = ["blob:json-f", "blob:atlas-f"] ∧
    (createSpineFromFiles c3Files "single" loadFailEnv).registeredKeys
      = ["spine-skeleton-single-f1", "spine-atlas-single-f1"] := by
  have h := c3_amended_partial_unwind c3Files "single" loadFailEnv
    (by decide) (Or.inl (by decide)) (by decide) (by decide)
  exact ⟨h.2.1.trans h.2.2.1, h.2.2.2⟩

theorem createSpine_shortcut (files : BindFiles) (assetPrefix : String)
    (env : BindEnv) (p : String)
    (hpages : extractAtlasPageNames files.atlasText = [p])
    (himg : files.images.length = 1) :
    createSpineFromFiles files assetPrefix env
      = if env.decodeOk then bindRegisterAndLoad assetPrefix env
        else
          { result := Except.error BindError.decodeFailure,
            registeredKeys := [], createdUrls := [], revokedUrls := [] } := by
  unfold createSpineFromFiles
  rw [hpages]
  rw [if_neg (by simp), if_pos ⟨by simp, himg⟩]

/-- C9: when the atlas declares exactly one page and exactly one image is
supplied, the bind takes the single-image shortcut: no name matching is
performed (the outcome is invariant under renaming the image), and the bind
succeeds whenever decoding and the external load succeed, whatever the
image's name. -/
theorem c9_single_image_shortcut (files : BindFiles) (assetPrefix : String)
    (env : BindEnv) (p : String)
    (hpages : extractAtlasPageNames files.atlasText = [p])
    (himg : files.images.length = 1)
    (hdecode : env.decodeOk = true) (hload : env.loadOk = true) :
    (createSpineFromFiles files assetPrefix env).result
      = Except.ok
          { assets := { keys := ["spine-skeleton-" ++ (assetPrefix ++ "-" ++ env.assetSuffix),
                                 "spine-atlas-" ++ (assetPrefix ++ "-" ++ env.assetSuffix)],
                        urls := [env.jsonUrl, env.atlasUrl] },
            animationNames := env.animationNames,
            skinNames := env.skinNames } ∧
    (∀ otherName : String,
      createSpineFromFiles { files with images := [{ name := otherName }] }
          assetPrefix env
        = createSpineFromFiles files assetPrefix env) := by
  constructor
  · rw [createSpine_shortcut files assetPrefix env p hpages himg, if_pos hdecode]
    unfold bindRegisterAndLoad
    rw [if_pos hload]
  · intro otherName
    rw [createSpine_shortcut { files with images := [{ name := otherName }] }
        assetPrefix env p hpages rfl,
      createSpine_shortcut files assetPrefix env p hpages himg]

/-- Witness for C9 at a concrete input whose single image name differs from
the declared page name. -/
theorem c9_witness :
    (createSpineFromFiles c9Files "slot-2-2" goodEnv).result
      = Except.ok
          { assets := { keys := ["spine-skeleton-slot-2-2-k1",
                                 "spine-atlas-slot-2-2-k1"],
                        urls := ["blob:json", "blob:atlas"] },
            animationNames := ["idle"], skinNames := ["default"] } := by
  have h := c9_single_image_shortcut c9Files "slot-2-2" goodEnv "whatever.png"
    (by decide) (by decide) (by decide) (by decide)
  exact h.1

theorem hitTest_corner (m : GridMetrics) (s : ℚ) (hs : 0 < s)
    (hcell : m.cellSize = s) (hsize : m.gridSize = s * 5)
    (r c : Nat) (hr : r < 5) (hc : c ≤ 5) :
    hitTestGrid m (cellLeft m c) (cellTop m r) = some ((r : Int), (c : Int)) := by
  have hc5 : (c : ℚ) ≤ 5 := by exact_mod_cast hc
  have hr5 : (r : ℚ) ≤ 5 := by exact_mod_cast le_of_lt hr
  have hcs : 0 ≤ (c : ℚ) * s := mul_nonneg (Nat.cast_nonneg c) hs.le
  have hrs : 0 ≤ (r : ℚ) * s := mul_nonneg (Nat.cast_nonneg r) hs.le
  have hcb : (c : ℚ) * s ≤ 5 * s := mul_le_mul_of_nonneg_right hc5 hs.le
  have hrb : (r : ℚ) * s ≤ 5 * s := mul_le_mul_of_nonneg_right hr5 hs.le
  unfold hitTestGrid cellLeft cellTop
  rw [hcell, hsize]
  rw [if_neg ?hbound]
  case hbound =>
    intro hcontra
    rcases hcontra with h | h | h | h
    · linarith
    · linarith
    · linarith
    · linarith
  have hx : (m.gridLeft + (c : ℚ) * s - m.gridLeft) / s = (c : ℚ) := by
    field_simp
  have hy : (m.gridTop + (r : ℚ) * s - m.gridTop) / s = (r : ℚ) := by
    field_simp
  rw [hx, hy, Int.floor_natCast, Int.floor_natCast]

/-- C4 counterexample: at the grid's far edge, a point exactly on the
boundary does not map to "none".  With a 1200-by-1200 viewport and 120-unit
cells the grid spans `[300, 900]`; the hit test accepts the point
`(900, 450)` (its bounds check uses strict `>`), and floors it to column
index 5 — one past the last valid column — rather than rejecting it. -/
theorem c4_counterexample :
    hitTestGrid c4Metrics 900 450 = some (1, 5) ∧
    hitTestGrid c4Metrics 900 450 ≠ none ∧
    ¬ ((5 : Int) < (gridCols : Int)) := by
  have hm : c4Metrics = GridMetrics.mk 120 600 300 300 := by
    unfold c4Metrics getGridMetrics
    simp only [GridMetrics.mk.injEq, gridCols]
    norm_num
  refine ⟨?_, ?_, by decide⟩
  · rw [hm]
    unfold hitTestGrid
    rw [if_neg (by push_neg; norm_num)]
    have h1 : (⌊((450 : ℚ) - 300) / 120⌋ : ℤ) = 1 := by
      norm_num [Int.floor_eq_iff]
    have h2 : (⌊((900 : ℚ) - 300) / 120⌋ : ℤ) = 5 := by
      norm_num [Int.floor_eq_iff]
    rw [h1, h2]
  · rw [hm]
    unfold hitTestGrid
    rw [if_neg (by push_neg; norm_num)]
    exact Option.noConfusion

/-- C4 amended: the hit test and the cell rectangles agree on half-open
`[left, left+size)` boundaries in the interior: every cell's top-left point
maps back to that cell, and a point exactly at `left+size` maps to the next
cell — including at the grid's far edge, where the hit test still accepts
the boundary point and produces the out-of-range index `gridCols` instead
of "none".  A point the hit test reports as outside never lies in any
cell's rectangle. -/
theorem c4_amended_halfopen (w h s : ℚ) (row col : Nat) (hs : 0 < s) :
    (row < gridRows → col < gridCols →
      hitTestGrid (getGridMetrics w h s) (cellLeft (getGridMetrics w h s) col)
          (cellTop (getGridMetrics w h s) row)
        = some ((row : Int), (col : Int))) ∧
    (row < gridRows → col + 1 ≤ gridCols →
      hitTestGrid (getGridMetrics w h s)
          (cellLeft (getGridMetrics w h s) (col + 1))
          (cellTop (getGridMetrics w h s) row)
        = some ((row : Int), ((col : Int) + 1))) ∧
    (∀ x y : ℚ, hitTestGrid (getGridMetrics w h s) x y = none →
      row < gridRows → col < gridCols →
      ¬ pointInCell (getGridMetrics w h s) row col x y) := by
  have hcell : (getGridMetrics w h s).cellSize = s := rfl
  have hsize : (getGridMetrics w h s).gridSize = s * 5 := by
    show s * (gridCols : ℚ) = s * 5
    norm_num [gridCols]
  refine ⟨?_, ?_, ?_⟩
  · intro hr hc
    exact hitTest_corner _ s hs hcell hsize row col hr (le_of_lt hc)
  · intro hr hc
    have hres := hitTest_corner _ s hs hcell hsize row (col + 1) hr hc
    rw [Nat.cast_add, Nat.cast_one] at hres
    exact hres
  · intro x y hnone hr hc hin
    unfold hitTestGrid at hnone
    have hcond : x < (getGridMetrics w h s).gridLeft ∨
        y < (getGridMetrics w h s).gridTop ∨
        x > (getGridMetrics w h s).gridLeft + (getGridMetrics w h s).gridSize ∨
        y > (getGridMetrics w h s).gridTop + (getGridMetrics w h s).gridSize := by
      by_contra hnc
      rw [if_neg hnc] at hnone
      exact Option.noConfusion hnone
    unfold pointInCell cellLeft cellTop at hin
    rw [hcell] at hin
    rw [hsize] at hcond
    obtain ⟨h1, h2, h3, h4⟩ := hin
    have hc4 : (col : ℚ) ≤ 4 := by exact_mod_cast Nat.lt_succ_iff.mp hc
    have hr4 : (row : ℚ) ≤ 4 := by exact_mod_cast Nat.lt_succ_iff.mp hr
    have hcs : 0 ≤ (col : ℚ) * s := mul_nonneg (Nat.cast_nonneg col) hs.le
    have hrs : 0 ≤ (row : ℚ) * s := mul_nonneg (Nat.cast_nonneg row) hs.le
    have hcb : (col : ℚ) * s + s ≤ 5 * s := by nlinarith
    have hrb : (row : ℚ) * s + s ≤ 5 * s := by nlinarith
    rcases hcond with hcase | hcase | hcase | hcase
    · linarith
    · linarith
    · linarith
    · linarith

/-- Witness for the amended C4 statement: on the 1200-by-1200 viewport with
120-unit cells, the top-left corner of cell `(0, 0)` maps back to it. -/
theorem c4_amended_witness :
    hitTestGrid c4Metrics (cellLeft c4Metrics 0) (cellTop c4Metrics 0)
      = some (0, 0) := by
  exact (c4_amended_halfopen 1200 1200 120 0 0 (by norm_num)).1
    (by decide) (by decide)

theorem fillEmpty_attempts_foldl (files : FillFiles) (fillScale : ℚ)
    (outcome : String → Option (List String × List String))
    (es : List GridSlot) :
    ∀ acc : List LoadAttempt × List GridSlot,
      (es.foldl (fillEmptyStep files fillScale outcome) acc).1
        = acc.1 ++ es.map (fun slot =>
            { slotId := slot.id, files := files, scale := fillScale }) := by
  induction es with
  | nil => intro acc; simp
  | cons e rest ih =>
    intro acc
    rw [List.foldl_cons, ih]
    show (fillEmptyStep files fillScale outcome acc e).1 ++ _ = _
    unfold fillEmptyStep
    simp [List.append_assoc]

/-- C7: `handleGridFillEmpty` issues exactly one load attempt per slot that
was empty when the handler started — in grid order, each with the same
files descriptor and the same fill scale — and none for a bound slot.  The
attempt list does not depend on the per-slot bind outcomes, so one slot's
failure does not abort or alter the attempts for the remaining slots (each
simulated `loadGridSlot` call is total: the source catches its own
errors).  The fold runs the source's `for ... await` loop, one settled call
before the next.  On the 25-slot grid with 3 pre-bound slots this makes
exactly 22 attempts. -/
theorem c7_fill_empty_attempts (slots : List GridSlot) (files : FillFiles)
    (fillScale : ℚ)
    (outcome outcome2 : String → Option (List String × List String)) :
    (handleGridFillEmpty slots files fillScale outcome).1
      = (slots.filter (fun slot => !slot.hasSpine)).map (fun slot =>
          { slotId := slot.id, files := files, scale := fillScale }) ∧
    (handleGridFillEmpty slots files fillScale outcome).1
      = (handleGridFillEmpty slots files fillScale outcome2).1 ∧
    (handleGridFillEmpty c7PreboundGrid files fillScale outcome).1.length = 22 := by
  have hmain : ∀ (o : String → Option (List String × List String))
      (sl : List GridSlot),
      (handleGridFillEmpty sl files fillScale o).1
        = (sl.filter (fun slot => !slot.hasSpine)).map (fun slot =>
            { slotId := slot.id, files := files, scale := fillScale }) := by
    intro o sl
    unfold handleGridFillEmpty
    rw [fillEmpty_attempts_foldl]
    simp
  refine ⟨hmain outcome slots,
    (hmain outcome slots).trans (hmain outcome2 slots).symm, ?_⟩
  rw [hmain outcome c7PreboundGrid, List.length_map]
  decide

/-- C8 counterexample: `handleGridClear` does not reset the slot record to
the empty-slot defaults.  A bound slot with scale 2 and looping off keeps
both after the clear update, while the default record has scale 1 and
looping on. -/
theorem c8_counterexample :
    clearSlotUpdate { initialSlot 0 0 with
        hasSpine := true, scale := 2, isLooping := false } ≠ initialSlot 0 0 ∧
    (clearSlotUpdate { initialSlot 0 0 with
        hasSpine := true, scale := 2, isLooping := false }).scale = 2 ∧
    (initialSlot 0 0).scale = 1 ∧
    (clearSlotUpdate { initialSlot 0 0 with
        hasSpine := true, scale := 2, isLooping := false }).isLooping = false ∧
    (initialSlot 0 0).isLooping = true := by
  exact ⟨by decide, rfl, rfl, rfl, rfl⟩

/-- C8 amended: after a `handleGridClear` iteration over a bound slot, both
table entries for the slot are gone, every registered key and every live
URL of the slot's bundle has been released, and the slot record is reset to
the empty-slot defaults except that `scale`, `isLooping` and `isPlaying`
retain their current values (the source's clear update does not touch
them). -/
theorem c8_amended_clear (s : CoreState) (slotId : String) (a : LoadedAssets)
    (hassets : mget s.gridAssets slotId = some a) :
    mget (clearIterSomeState s slotId a).gridAssets slotId = none ∧
    mget (clearIterSomeState s slotId a).gridSpines slotId = none ∧
    (∀ k ∈ a.keys, k ∉ (clearIterSomeState s slotId a).registeredKeys) ∧
    (∀ u ∈ a.urls, u ∉ (clearIterSomeState s slotId a).liveUrls) ∧
    (clearIterSomeState s slotId a).gridSlots
      = updateGridSlot s.gridSlots slotId clearSlotUpdate ∧
    (∀ slot : GridSlot, clearSlotUpdate slot = clearDefaults slot) := by
  refine ⟨?_, ?_, ?_, ?_, rfl, ?_⟩
  · show mget (mdel s.gridAssets slotId) slotId = none
    rw [mget_mdel, if_pos rfl]
  · show mget (mdel s.gridSpines slotId) slotId = none
    rw [mget_mdel, if_pos rfl]
  · intro k hk
    exact not_mem_removeAllStr hk
  · intro u hu
    exact not_mem_removeAllStr hu
  · intro slot
    cases slot
    rfl

/-- Witness for the amended C8 statement on a concrete bound slot. -/
theorem c8_amended_witness :
    mget (clearIterSomeState c8State "slot-0-0" c8Bundle).gridAssets
      "slot-0-0" = none ∧
    mget (clearIterSomeState c8State "slot-0-0" c8Bundle).gridSpines
      "slot-0-0" = none ∧
    "spine-skeleton-slot-0-0-c8" ∉
      (clearIterSomeState c8State "slot-0-0" c8Bundle).registeredKeys ∧
    "blob:json-c8" ∉
      (clearIterSomeState c8State "slot-0-0" c8Bundle).liveUrls := by
  have h := c8_amended_clear c8State "slot-0-0" c8Bundle (by decide)
  exact ⟨h.1, h.2.1, h.2.2.1 _ (by decide), h.2.2.2.1 _ (by decide)⟩

theorem c1_step01 : Step initialCoreState c1s1 :=
  Step.loadInitFresh initialCoreState 1 "slot-0-0" none (initialSlot 0 0)
    (by decide) (by decide)

theorem c1_step12 : Step c1s1 c1s2 :=
  Step.loadInitFresh c1s1 2 "slot-0-0" none
    (loadingSlotUpdate (initialSlot 0 0)) (by decide) (by decide)

theorem c1_step23 : Step c1s2 c1s3 :=
  Step.loadComplete c1s2 [(c1Task1, LoadPhase.waitingCreate)] [] c1Task2 2
    c1Bundle2 ["idle"] ["default"] (by decide)

theorem c1_step34 : Step c1s3 c1s4 :=
  Step.loadComplete c1s3 [] [] c1Task1 1 c1Bundle1 ["idle"] ["default"]
    (by decide)

theorem c1_step2t3 : Step c1s2 c1t3 :=
  Step.loadComplete c1s2 [] [(c1Task2, LoadPhase.waitingCreate)] c1Task1 1
    c1Bundle1 ["idle"] ["default"] (by decide)

theorem c1_stept34 : Step c1t3 c1t4 :=
  Step.loadComplete c1t3 [] [] c1Task2 2 c1Bundle2 ["idle"] ["default"]
    (by decide)

/-- C1 counterexample: two loads are issued in rapid succession on
`slot-0-0` (task 1 then task 2) and complete in the opposite order.  The
reachable final state holds the FIRST load's spine handle and bundle — the
claim's "only the second result is ever applied, regardless of completion
order" fails — and the second load's bundle keys are still registered: its
result was overwritten without ever being released.  No generation counter
exists to discard the stale completion: `GridSlot` (App.tsx lines 17-32)
has no such field and `loadGridSlot` (lines 773-865) performs no currency
check. -/
theorem c1_counterexample :
    Relation.ReflTransGen Step initialCoreState c1s4 ∧
    mget c1s4.gridSpines "slot-0-0" = some 1 ∧
    mget c1s4.gridAssets "slot-0-0" = some c1Bundle1 ∧
    c1s4.registeredKeys = c1Bundle2.keys ++ c1Bundle1.keys := by
  refine ⟨?_, by decide, by decide, by decide⟩
  exact Relation.ReflTransGen.head c1_step01
    (Relation.ReflTransGen.head c1_step12
      (Relation.ReflTransGen.head c1_step23
        (Relation.ReflTransGen.single c1_step34)))

/-- C1 amended: the slots carry no generation counter and completions are
never discarded: every successful completion is applied to the tables
unconditionally, so with two loads in flight on the same slot each
completion overwrites the previous one and the load that completes last is
the one left applied — even in issue order, the first result is attached at
an intermediate observable instant, and the superseded bundle's keys remain
registered, not released. -/
theorem c1_amended_last_completion_wins :
    Relation.ReflTransGen Step initialCoreState c1t3 ∧
    Relation.ReflTransGen Step initialCoreState c1t4 ∧
    mget c1t3.gridSpines "slot-0-0" = some 1 ∧
    mget c1t4.gridSpines "slot-0-0" = some 2 ∧
    mget c1t4.gridAssets "slot-0-0" = some c1Bundle2 ∧
    c1t4.registeredKeys = c1Bundle1.keys ++ c1Bundle2.keys := by
  refine ⟨?_, ?_, by decide, by decide, by decide, by decide⟩
  · exact Relation.ReflTransGen.head c1_step01
      (Relation.ReflTransGen.head c1_step12
        (Relation.ReflTransGen.single c1_step2t3))
  · exact Relation.ReflTransGen.head c1_step01
      (Relation.ReflTransGen.head c1_step12
        (Relation.ReflTransGen.head c1_step2t3
          (Relation.ReflTransGen.single c1_stept34)))

/-- C2: the per-slot table invariant — a slot has a spine-instance entry
exactly when it has an asset-bundle entry — holds at every observable
instant: it is preserved by every atomic step of the lifecycle (each
synchronous block between `await` suspension points of `loadGridSlot` and
`handleGridClear`), under arbitrary interleaving, hence by every reachable
state. -/
theorem c2_instance_iff_bundle (s s2 : CoreState) (hc : Consistent s)
    (hreach : Relation.ReflTransGen Step s s2) : Consistent s2 := by
  induction hreach with
  | refl => exact hc
  | tail _ hstep ih => exact step_preserves_consistent hstep ih

/-- Witness for C2 at the application's initial state (empty tables). -/
theorem c2_witness : Consistent initialCoreState :=
  c2_instance_iff_bundle initialCoreState initialCoreState
    (fun _ => Iff.rfl) Relation.ReflTransGen.refl

/-- C10: in grid mode, every pointer-down on the canvas or the grid guide —
not only the first one after a fresh load — leaves the internal
outline-visibility ref false and every outline graphic cleared, while the
React `showGridOutlines` state (the toggle button's label) is unchanged; in
particular, starting from a fresh bound state with both flags on, one
pointer-down yields `showGridOutlines = true` with the ref off, so the
toggle and the actual visibility disagree until the button is pressed
again. -/
theorem c10_pointerdown_disables (s : OutlineState)
    (hmode : s.isGridMode = true) (hinv : OutlinesOffInvariant s) :
    (outlineStep OutlineEvent.pointerDown s).showGridOutlinesRefCur = false ∧
    (∀ p ∈ (outlineStep OutlineEvent.pointerDown s).gridOutlines,
      p.2 = false) ∧
    (outlineStep OutlineEvent.pointerDown s).showGridOutlines
      = s.showGridOutlines ∧
    (outlineStep OutlineEvent.pointerDown c10DemoState).showGridOutlines
      = true ∧
    (outlineStep OutlineEvent.pointerDown c10DemoState).showGridOutlinesRefCur
      = false := by
  have hstep : outlineStep OutlineEvent.pointerDown s = disableGridOutlines s := by
    show pointerdownOutlinePart s = disableGridOutlines s
    unfold pointerdownOutlinePart
    rw [if_pos hmode]
  rw [hstep]
  unfold disableGridOutlines
  by_cases hr : s.showGridOutlinesRefCur = false
  · rw [if_pos hr]
    exact ⟨hr, hinv hr, rfl, by decide, by decide⟩
  · rw [if_neg hr]
    refine ⟨rfl, ?_, rfl, by decide, by decide⟩
    intro p hp
    rcases List.mem_map.mp hp with ⟨q, _, hq⟩
    rw [← hq]

/-- Witness for C10: a second pointer-down, after one has already disabled
the outlines, still leaves the ref off, all outlines blank, and the React
toggle state reading `true`. -/
theorem c10_witness :
    (outlineStep OutlineEvent.pointerDown
        (outlineStep OutlineEvent.pointerDown c10DemoState)).showGridOutlinesRefCur
      = false ∧
    (outlineStep OutlineEvent.pointerDown
        (outlineStep OutlineEvent.pointerDown c10DemoState)).showGridOutlines
      = true := by
  have h := c10_pointerdown_disables
    (outlineStep OutlineEvent.pointerDown c10DemoState) (by decide) (by decide)
  exact ⟨h.1, h.2.2.1.trans (by decide)⟩

end SpineViewer
